import Mathlib

/-!
# Verification of the ghostfetch anti-detection fetch pipeline

Shallow embedding, in Lean 4, of the parts of the ghostfetch/brwoser Go
repository that the specification's claims are about:

* `challenge.go` — challenge classification (`detectChallenge`, `containsAny`);
* `cookies.go` — the persistent cookie store (`PersistentJar.SetCookies`,
  `Save`, `Load`) and its parallel tracking record;
* the JS sandbox solver (`__setCookie` cookie trampoline, `setupGlobals`
  navigator installation, `newJSSolver`);
* the browser profiles (`getProfile`, `chromeProfile`, `firefoxProfile`);
* the transport's redirect policy (the `CheckRedirect` callback of
  `doFetchWithBody`, combined with Go's documented `http.Client` redirect
  loop);
* the fetch coordinator surfaces (`fetchOne` and `main.go`'s `run`) and the
  parallel scheduler (`runParallelFetch`).

Go byte strings are modelled as Lean `String` / `List Char` (all markers and
inputs of interest are ASCII, where the two agree byte for byte); machine
integers that never overflow in the modelled ranges are `Nat`; absolute time
instants are `Nat` with `Option Nat` for Go's zero `time.Time`; fallible Go
functions return `Except`/`Option`.
-/

/-! ## String utilities (Go `strings` / `bytes` package semantics) -/

/-- `leadsWith pat s` is true when `pat` is an initial segment of `s`
(Go `bytes.HasPrefix` on byte slices, modelled on character lists). -/
def leadsWith : List Char → List Char → Bool
  | [], _ => true
  | _ :: _, [] => false
  | p :: ps, c :: cs => (p == c) && leadsWith ps cs

/-- `containsSeq pat s` is true when `pat` occurs contiguously inside `s`
(Go `bytes.Contains(s, pat)` / `strings.Contains`). -/
def containsSeq (pat : List Char) : List Char → Bool
  | [] => pat.isEmpty
  | c :: cs => leadsWith pat (c :: cs) || containsSeq pat cs

/-- Go `strings.Contains(s, pat)` on Lean strings. -/
def strContains (s pat : String) : Bool :=
  containsSeq pat.data s.data

/-! ## Challenge detection (`src/challenge.go`) -/

/-- The Go `ChallengeType` enumeration of `challenge.go`. -/
inductive ChallengeType
  | ChallengeNone
  | ChallengeJS
  | ChallengeCaptcha
deriving DecidableEq, Repr

/-- `containsAny(body, patterns)` from `challenge.go`: true when any pattern
occurs in the body. -/
def containsAny (body : String) (patterns : List String) : Bool :=
  patterns.any (fun p => strContains body p)

/-- The captcha marker list of `detectChallenge` (`challenge.go:35-42`). -/
def captchaMarkers : List String :=
  ["turnstile", "challenges.cloudflare.com", "h-captcha",
   "data-sitekey", "g-recaptcha", "www.google.com/recaptcha"]

/-- The Cloudflare JS-challenge marker list (`challenge.go:48-54`). -/
def cfJSMarkers : List String :=
  ["Just a moment", "_cf_chl", "cf-challenge", "jschl_vc", "jschl_answer"]

/-- The generic JS-redirect marker list (`challenge.go:60-63`). -/
def genericJSMarkers : List String :=
  ["<noscript>", "document.cookie"]

/-- `detectChallenge` from `challenge.go:30-68`.  The response is represented
by the value of its `Server` header (`resp.Header.Get("Server")`, the empty
string when absent), its status code, and the body bytes.  `len(body)` in Go
counts bytes, modelled by `String.utf8ByteSize`. -/
def detectChallenge (server : String) (status : Nat) (body : String) : ChallengeType :=
  let serverLower := server.toLower
  let isCloudflare := strContains serverLower "cloudflare"
  if containsAny body captchaMarkers then
    .ChallengeCaptcha
  else if isCloudflare && (status == 503 || status == 403)
      && containsAny body cfJSMarkers then
    .ChallengeJS
  else if status == 503 && containsAny body genericJSMarkers
      && decide (body.utf8ByteSize < 10000) then
    .ChallengeJS
  else
    .ChallengeNone

/-- The specification's classification rules (§4.4), written from the spec's
words: four rules evaluated in order, first match wins.  Rule 2 lists the
status set as {403, 503} and rule 3 spells out its two markers. -/
def specClassify (server : String) (status : Nat) (body : String) : ChallengeType :=
  if containsAny body captchaMarkers then
    .ChallengeCaptcha
  else if strContains server.toLower "cloudflare" && (status == 403 || status == 503)
      && containsAny body cfJSMarkers then
    .ChallengeJS
  else if status == 503 && (strContains body "<noscript>" || strContains body "document.cookie")
      && decide (body.utf8ByteSize < 10000) then
    .ChallengeJS
  else
    .ChallengeNone

/-- C1: `detectChallenge` evaluates the spec's ordered classification rules
with first match winning, and a body carrying a captcha marker classifies as
Captcha regardless of any JS-interstitial markers also present. -/
theorem detectChallenge_matches_spec (server : String) (status : Nat) (body : String) :
    detectChallenge server status body = specClassify server status body ∧
    (containsAny body captchaMarkers = true →
      detectChallenge server status body = ChallengeType.ChallengeCaptcha) := by
  constructor
  · unfold detectChallenge specClassify
    have horder : (status == 503 || status == 403) = (status == 403 || status == 503) :=
      Bool.or_comm _ _
    have hgen : containsAny body genericJSMarkers
        = (strContains body "<noscript>" || strContains body "document.cookie") := by
      simp [containsAny, genericJSMarkers, List.any]
    rw [horder, hgen]
  · intro h
    unfold detectChallenge
    simp [h]

/-- Witness for C1: a body containing both the captcha marker `data-sitekey`
and the JS marker `Just a moment` classifies as Captcha (non-vacuity of the
hypothesis of the second conjunct). -/
theorem detectChallenge_matches_spec_witness :
    detectChallenge "cloudflare" 503 "Just a moment data-sitekey"
      = ChallengeType.ChallengeCaptcha :=
  (detectChallenge_matches_spec "cloudflare" 503 "Just a moment data-sitekey").2 (by decide)

/-! ## JS sandbox cookie trampoline (`__setCookie`, `src/unnamed/part_004:100-111`) -/

/-- Go `unicode.IsSpace` restricted to the ASCII whitespace characters that
`Char.isWhitespace` also covers (space, tab, LF, CR); all inputs of interest
are ASCII. -/
def goIsSpace (c : Char) : Bool := c.isWhitespace

/-- Go `strings.TrimSpace` on a character list: drop whitespace from both
ends. -/
def goTrim (s : List Char) : List Char :=
  ((s.dropWhile goIsSpace).reverse.dropWhile goIsSpace).reverse

/-- Go `strings.SplitN(s, sep, 2)` for a one-character separator: `[s]` when
the separator does not occur, otherwise the part before the first occurrence
and the part after it. -/
def splitN2 (sep : Char) (s : List Char) : List (List Char) :=
  if sep ∈ s then [s.takeWhile (· != sep), (s.dropWhile (· != sep)).tail]
  else [s]

/-- The part of `s` strictly before the first occurrence of `sep` (all of `s`
when `sep` does not occur). -/
def beforeFirst (sep : Char) (s : List Char) : List Char :=
  s.takeWhile (· != sep)

/-- The part of `s` strictly after the first occurrence of `sep`. -/
def afterFirst (sep : Char) (s : List Char) : List Char :=
  (s.dropWhile (· != sep)).tail

/-- The `SolveResult` record of the JS sandbox solver (`part_004:14-19`).
`FormData` (a Go `map[string]string`, never written by any modelled code
path) is modelled as an association list. -/
structure SolveResult where
  CookieName : String := ""
  CookieValue : String := ""
  FormAction : String := ""
  FormData : List (String × String) := []
deriving DecidableEq, Repr

/-- The `__setCookie` host trampoline (`part_004:100-111`): split the
assigned string at the first `;`, `strings.TrimSpace` the head, split the
trimmed head at the first `=`; when that split yields two parts, store them
as cookie name and value, otherwise leave the result untouched. -/
def setCookieModel (result : SolveResult) (cookieStr : String) : SolveResult :=
  let parts := splitN2 ';' cookieStr.data
  match splitN2 '=' (goTrim (parts.headD [])) with
  | [n, v] => { result with CookieName := ⟨n⟩, CookieValue := ⟨v⟩ }
  | _ => result

/-- The claim's parse, written from the claim's words with no trimming step:
take the part of `v` before its first `;`, split that head at its first `=`,
store the left side as the name and the right side as the value. -/
def claimSetCookie (result : SolveResult) (v : String) : SolveResult :=
  let head := beforeFirst ';' v.data
  { result with CookieName := ⟨beforeFirst '=' head⟩,
                CookieValue := ⟨afterFirst '=' head⟩ }

/-- The amended parse: as the claim, except that the head is
whitespace-trimmed before the split at `=`, and an assignment whose trimmed
head contains no `=` leaves the previous capture unchanged. -/
def claimSetCookieTrim (result : SolveResult) (v : String) : SolveResult :=
  let head := goTrim (beforeFirst ';' v.data)
  if '=' ∈ head then
    { result with CookieName := ⟨beforeFirst '=' head⟩,
                  CookieValue := ⟨afterFirst '=' head⟩ }
  else result

/-- C4 counterexample: for the assignment `" k=v; Path=/"` the solver trims
the head and stores name `"k"`, while the claim's untrimmed parse prescribes
name `" k"`. -/
theorem setCookie_claim_counterexample :
    setCookieModel {} " k=v; Path=/" ≠ claimSetCookie {} " k=v; Path=/" ∧
    (setCookieModel {} " k=v; Path=/").CookieName = "k" ∧
    (claimSetCookie {} " k=v; Path=/").CookieName = " k" := by
  refine ⟨?_, by decide, by decide⟩
  decide

/-- A `takeWhile (· != sep)` over a list not containing `sep` returns the
whole list. -/
lemma takeWhile_ne_eq_self {sep : Char} {s : List Char} (h : sep ∉ s) :
    s.takeWhile (· != sep) = s := by
  induction s with
  | nil => rfl
  | cons c cs ih =>
    simp only [List.mem_cons, not_or] at h
    have hc : (c != sep) = true := by
      rw [bne_iff_ne]
      exact fun he => h.1 he.symm
    simp [List.takeWhile_cons, hc, ih h.2]

/-- The head that `__setCookie` trims and splits (`parts[0]` of
`strings.SplitN(s, ";", 2)`) is the part of the string before its first `;`. -/
lemma splitN2_headD (sep : Char) (s : List Char) :
    (splitN2 sep s).headD [] = beforeFirst sep s := by
  unfold splitN2 beforeFirst
  split
  · rfl
  · next h => exact (takeWhile_ne_eq_self h).symm

/-- Characters of the trimmed string are characters of the string. -/
lemma mem_of_mem_goTrim {c : Char} {s : List Char} (h : c ∈ goTrim s) : c ∈ s := by
  unfold goTrim at h
  rw [List.mem_reverse] at h
  have h2 := (List.dropWhile_sublist _).subset h
  rw [List.mem_reverse] at h2
  exact (List.dropWhile_sublist _).subset h2

/-- `__setCookie` coincides with the amended parse: trim the part before the
first `;`, split at the first `=` when one exists, otherwise keep the old
capture. -/
lemma setCookieModel_eq_claimTrim (r : SolveResult) (v : String) :
    setCookieModel r v = claimSetCookieTrim r v := by
  unfold setCookieModel claimSetCookieTrim
  simp only [splitN2_headD]
  generalize goTrim (beforeFirst ';' v.data) = h
  by_cases hm : '=' ∈ h
  · simp only [splitN2, beforeFirst, afterFirst, hm, if_pos]
  · simp only [splitN2, hm, if_neg, not_false_eq_true]

/-- The trampoline's parse never touches `FormAction`. -/
lemma claimSetCookieTrim_FormAction (r : SolveResult) (v : String) :
    (claimSetCookieTrim r v).FormAction = r.FormAction := by
  simp only [claimSetCookieTrim]
  split <;> rfl

/-- The trampoline's parse never touches `FormData`. -/
lemma claimSetCookieTrim_FormData (r : SolveResult) (v : String) :
    (claimSetCookieTrim r v).FormData = r.FormData := by
  simp only [claimSetCookieTrim]
  split <;> rfl

/-- A well-formed assignment overwrites the capture independently of the
previously captured name and value. -/
lemma claimSetCookieTrim_ignores_capture (r r' : SolveResult) (v : String)
    (ha : r.FormAction = r'.FormAction) (hd : r.FormData = r'.FormData)
    (hm : '=' ∈ goTrim (beforeFirst ';' v.data)) :
    claimSetCookieTrim r v = claimSetCookieTrim r' v := by
  unfold claimSetCookieTrim
  simp only [hm, if_pos, ha, hd]

/-- C4 (amended): `__setCookie` takes the part of the assigned string before
its first `;`, whitespace-trims it, and, when the trimmed head contains `=`,
splits it there into the stored name and value; a later well-formed
assignment overwrites the values captured from an earlier one; and evaluating
`document.cookie = "k=v; Path=/"` yields the solve result `(k, v)`. -/
theorem setCookie_parse_amended (r : SolveResult) (v v1 v2 : String)
    (h2 : '=' ∈ goTrim (beforeFirst ';' v2.data)) :
    setCookieModel r v = claimSetCookieTrim r v ∧
    setCookieModel (setCookieModel r v1) v2 = setCookieModel r v2 ∧
    setCookieModel {} "k=v; Path=/"
      = { CookieName := "k", CookieValue := "v" } := by
  refine ⟨setCookieModel_eq_claimTrim r v, ?_, by decide⟩
  rw [setCookieModel_eq_claimTrim (setCookieModel r v1) v2,
    setCookieModel_eq_claimTrim r v2, setCookieModel_eq_claimTrim r v1]
  exact claimSetCookieTrim_ignores_capture _ _ _
    (claimSetCookieTrim_FormAction r v1) (claimSetCookieTrim_FormData r v1) h2

/-- Witness for C4: the amended parse evaluated at the concrete assignments
`"x"`, `"a=b"` and `"k=v; Path=/"`. -/
theorem setCookie_parse_amended_witness :
    setCookieModel {} "x" = claimSetCookieTrim {} "x" ∧
    setCookieModel (setCookieModel {} "a=b") "k=v; Path=/"
      = setCookieModel {} "k=v; Path=/" ∧
    setCookieModel {} "k=v; Path=/"
      = { CookieName := "k", CookieValue := "v" } :=
  setCookie_parse_amended {} "x" "a=b" "k=v; Path=/" (by decide)

/-- C10: an assignment to `document.cookie` whose part before the first `;`
contains no `=` leaves the previously captured cookie name and value
unchanged, and as the only assignment it yields the empty capture. -/
theorem setCookie_malformed_ignored (r : SolveResult) (v : String)
    (h : '=' ∉ beforeFirst ';' v.data) :
    setCookieModel r v = r ∧ setCookieModel {} v = ({} : SolveResult) := by
  have hgen : ∀ r' : SolveResult, setCookieModel r' v = r' := by
    intro r'
    rw [setCookieModel_eq_claimTrim]
    unfold claimSetCookieTrim
    have hnm : '=' ∉ goTrim (beforeFirst ';' v.data) := fun hc => h (mem_of_mem_goTrim hc)
    simp only [hnm, if_neg, not_false_eq_true]
  exact ⟨hgen r, hgen {}⟩

/-- Witness for C10: the malformed assignment `"garbage; Path=/"` leaves a
previously captured `(a, b)` pair untouched and captures nothing on its
own. -/
theorem setCookie_malformed_ignored_witness :
    setCookieModel { CookieName := "a", CookieValue := "b" } "garbage; Path=/"
      = { CookieName := "a", CookieValue := "b" } ∧
    setCookieModel {} "garbage; Path=/" = ({} : SolveResult) :=
  setCookie_malformed_ignored { CookieName := "a", CookieValue := "b" }
    "garbage; Path=/" (by decide)

/-! ## Persistent cookie store (`src/cookies.go`) -/

/-- An `http.Cookie` restricted to the fields `PersistentJar.SetCookies`
reads (`cookies.go:57-65`).  `Expires` is an absolute instant; `none` models
Go's zero `time.Time` (a session cookie). -/
structure CookieR where
  name : String
  value : String
  domain : String := ""
  path : String := ""
  expires : Option Nat := none
  secure : Bool := false
deriving DecidableEq, Repr

/-- The `savedCookie` record of `cookies.go:27-35`: the tuple kept in the
parallel tracking slice and serialized to disk. -/
structure SavedCookie where
  name : String
  value : String
  domain : String
  path : String
  expires : Option Nat
  secure : Bool
  url : String
deriving DecidableEq, Repr

/-- The `savedCookie` built from an input cookie and an origin key
(`cookies.go:57-65`). -/
def toSaved (origin : String) (c : CookieR) : SavedCookie :=
  { name := c.name, value := c.value, domain := c.domain, path := c.path,
    expires := c.expires, secure := c.secure, url := origin }

/-- The removal loop of `SetCookies` (`cookies.go:51-56`): remove the first
tracked tuple with the given name and origin key, then stop (`break`). -/
def removeFirstMatch (n u : String) : List SavedCookie → List SavedCookie
  | [] => []
  | c :: cs => if c.name == n && c.url == u then cs else c :: removeFirstMatch n u cs

/-- One iteration of the tracking update of `SetCookies`: remove any prior
tuple with the same (name, origin-key), then append the new tuple at the
end. -/
def trackOne (tracked : List SavedCookie) (sc : SavedCookie) : List SavedCookie :=
  removeFirstMatch sc.name sc.url tracked ++ [sc]

/-- The tracking-record update performed by `PersistentJar.SetCookies`
(`cookies.go:48-66`) for one call with origin key `origin` and input cookie
list `cookies`. -/
def setCookiesTrack (origin : String) (cookies : List CookieR)
    (tracked : List SavedCookie) : List SavedCookie :=
  cookies.foldl (fun t c => trackOne t (toSaved origin c)) tracked

/-- The (name, origin-key) keys of a tracking record. -/
def trackedKeys (tracked : List SavedCookie) : List (String × String) :=
  tracked.map (fun sc => (sc.name, sc.url))

/-- The tracking record after a sequence of `SetCookies` calls on a fresh
store (`newPersistentJar` starts with an empty tracking slice). -/
def runSetCookiesCalls (calls : List (String × List CookieR)) : List SavedCookie :=
  calls.foldl (fun t call => setCookiesTrack call.1 call.2 t) []

/-- `removeFirstMatch` yields a sublist of its input. -/
lemma removeFirstMatch_sublist (n u : String) (l : List SavedCookie) :
    (removeFirstMatch n u l).Sublist l := by
  induction l with
  | nil => simp [removeFirstMatch]
  | cons c cs ih =>
    unfold removeFirstMatch
    split
    · exact (List.sublist_cons_self c cs)
    · exact ih.cons₂ c

/-- When the keys of the record are pairwise distinct, removing the first
match for key (n, u) removes every tuple with that key. -/
lemma not_mem_keys_removeFirstMatch (n u : String) (l : List SavedCookie)
    (hnd : (trackedKeys l).Nodup) :
    (n, u) ∉ trackedKeys (removeFirstMatch n u l) := by
  induction l with
  | nil => simp [removeFirstMatch, trackedKeys]
  | cons c cs ih =>
    simp only [trackedKeys, List.map_cons, List.nodup_cons] at hnd
    unfold removeFirstMatch
    split
    · next hmatch =>
      simp only [Bool.and_eq_true, beq_iff_eq] at hmatch
      intro hc
      exact hnd.1 (by simpa [trackedKeys, hmatch.1, hmatch.2] using hc)
    · next hmatch =>
      simp only [Bool.and_eq_true, beq_iff_eq, not_and_or] at hmatch
      intro hc
      simp only [trackedKeys, List.map_cons, List.mem_cons] at hc
      rcases hc with hc | hc
      · have h1 : c.name = n := congrArg Prod.fst hc.symm
        have h2 : c.url = u := congrArg Prod.snd hc.symm
        rcases hmatch with hm | hm
        · exact hm h1
        · exact hm h2
      · exact ih hnd.2 hc

/-- Removing preserves distinctness of keys. -/
lemma nodup_keys_removeFirstMatch (n u : String) (l : List SavedCookie)
    (hnd : (trackedKeys l).Nodup) :
    (trackedKeys (removeFirstMatch n u l)).Nodup := by
  have hsub : (trackedKeys (removeFirstMatch n u l)).Sublist (trackedKeys l) :=
    (removeFirstMatch_sublist n u l).map _
  exact hsub.nodup hnd

/-- `trackOne` preserves distinctness of the (name, origin-key) keys. -/
lemma nodup_keys_trackOne (l : List SavedCookie) (sc : SavedCookie)
    (hnd : (trackedKeys l).Nodup) :
    (trackedKeys (trackOne l sc)).Nodup := by
  unfold trackOne trackedKeys
  rw [List.map_append, List.nodup_append]
  refine ⟨nodup_keys_removeFirstMatch sc.name sc.url l hnd, List.nodup_singleton _, ?_⟩
  intro k hk hk'
  simp only [List.map_cons, List.map_nil, List.mem_singleton] at hk'
  subst hk'
  exact not_mem_keys_removeFirstMatch sc.name sc.url l hnd hk

/-- `setCookiesTrack` preserves distinctness of the keys. -/
lemma nodup_keys_setCookiesTrack (origin : String) (cookies : List CookieR)
    (tracked : List SavedCookie) (hnd : (trackedKeys tracked).Nodup) :
    (trackedKeys (setCookiesTrack origin cookies tracked)).Nodup := by
  induction cookies generalizing tracked with
  | nil => exact hnd
  | cons c cs ih =>
    exact ih (trackOne tracked (toSaved origin c)) (nodup_keys_trackOne _ _ hnd)

/-- C5: after any sequence of `SetCookies` calls on a fresh store, the
parallel tracking record holds at most one tuple per (name, origin-key)
pair — each insert removes the prior tuple with its key before appending the
new tuple at the end. -/
theorem tracking_record_at_most_one_per_key (calls : List (String × List CookieR)) :
    (trackedKeys (runSetCookiesCalls calls)).Nodup ∧
    (∀ tracked sc, trackOne tracked sc = removeFirstMatch sc.name sc.url tracked ++ [sc]) := by
  constructor
  · unfold runSetCookiesCalls
    have hgen : ∀ (cs : List (String × List CookieR)) (t : List SavedCookie),
        (trackedKeys t).Nodup →
        (trackedKeys (cs.foldl (fun t call => setCookiesTrack call.1 call.2 t) t)).Nodup := by
      intro cs
      induction cs with
      | nil => intro t h; exact h
      | cons c rest ih =>
        intro t h
        exact ih _ (nodup_keys_setCookiesTrack c.1 c.2 t h)
    exact hgen calls [] (by simp [trackedKeys])
  · intro tracked sc
    rfl

/-- A response in the redirect model: either a redirect to a next location or
a final response carrying status and body.  URLs are an abstract type. -/
inductive RedirResp (α : Type)
  | redirectTo (loc : α)
  | final (status : Nat) (body : String)

/-- The error of the redirect policy: the `"too many redirects"` error
returned by the `CheckRedirect` callback. -/
inductive FetchErr
  | tooManyRedirects
deriving DecidableEq, Repr

/-- Go's `http.Client` redirect loop specialised to the `CheckRedirect`
callback of `doFetchWithBody` (`part_005:120-125`).  `sent` counts the
requests already issued, including the one whose response is being examined
(Go's `via` list when the next request is checked).  On a redirect response
the client builds the next request and calls `CheckRedirect` with `via` of
length `sent`; the callback fails when `len(via) >= 10`. -/
def clientLoop {α : Type} (respond : α → RedirResp α) (url : α) (sent : Nat) :
    Except FetchErr (Nat × String) :=
  match respond url with
  | .final s b => .ok (s, b)
  | .redirectTo loc =>
    if 10 ≤ sent then .error .tooManyRedirects
    else clientLoop respond loc (sent + 1)
termination_by 10 - sent
decreasing_by simp_wf; omega

/-- The redirect-following behaviour of one fetch: the loop starts after the
initial request has been sent (`sent = 1`). -/
def doFetchRedirects {α : Type} (respond : α → RedirResp α) (url : α) :
    Except FetchErr (Nat × String) :=
  clientLoop respond url 1

/-- A redirect chain of exactly `n` hops over `Nat`-indexed URLs: URLs
`0 … n-1` redirect to their successor and URL `n` answers `200 "done"`. -/
def chainRespond (n : Nat) : Nat → RedirResp Nat :=
  fun k => if k < n then .redirectTo (k + 1) else .final 200 "done"

/-- Closed form of the client loop on an `n`-hop chain, by induction on the
remaining request budget. -/
lemma clientLoop_chain_aux (n fuel : Nat) : ∀ sent k, 10 - sent = fuel →
    clientLoop (chainRespond n) k sent =
      if k + (10 - sent) < n then Except.error FetchErr.tooManyRedirects
      else Except.ok (200, "done") := by
  induction fuel with
  | zero =>
    intro sent k hf
    by_cases hk : k < n
    · have hr : chainRespond n k = RedirResp.redirectTo (k + 1) := by
        unfold chainRespond
        rw [if_pos hk]
      unfold clientLoop
      simp only [hr]
      rw [if_pos (show 10 ≤ sent by omega), if_pos (show k + (10 - sent) < n by omega)]
    · have hr : chainRespond n k = RedirResp.final 200 "done" := by
        unfold chainRespond
        rw [if_neg hk]
      unfold clientLoop
      simp only [hr]
      rw [if_neg (show ¬ k + (10 - sent) < n by omega)]
  | succ fuel ih =>
    intro sent k hf
    by_cases hk : k < n
    · have hr : chainRespond n k = RedirResp.redirectTo (k + 1) := by
        unfold chainRespond
        rw [if_pos hk]
      unfold clientLoop
      simp only [hr]
      rw [if_neg (show ¬ 10 ≤ sent by omega), ih (sent + 1) (k + 1) (by omega),
        show k + 1 + (10 - (sent + 1)) = k + (10 - sent) by omega]
    · have hr : chainRespond n k = RedirResp.final 200 "done" := by
        unfold chainRespond
        rw [if_neg hk]
      unfold clientLoop
      simp only [hr]
      rw [if_neg (show ¬ k + (10 - sent) < n by omega)]

/-- Closed form of the client loop on an `n`-hop chain. -/
lemma clientLoop_chain (n sent k : Nat) :
    clientLoop (chainRespond n) k sent =
      if k + (10 - sent) < n then Except.error FetchErr.tooManyRedirects
      else Except.ok (200, "done") :=
  clientLoop_chain_aux n (10 - sent) sent k rfl

/-- C7 counterexample: a chain of exactly 10 redirect hops is not followed to
completion — the fetch fails with the too-many-redirects error, although the
claim says chains of up to 10 hops complete. -/
theorem redirect_ten_hop_chain_fails :
    doFetchRedirects (chainRespond 10) 0 = Except.error FetchErr.tooManyRedirects := by
  rw [doFetchRedirects, clientLoop_chain]
  norm_num

/-- C7 (amended): the request executor follows redirect chains of up to 9
hops to completion; a chain of 10 or more hops makes the fetch fail with the
too-many-redirects (redirect-loop) error. -/
theorem redirect_policy_amended (n : Nat) :
    (n ≤ 9 → doFetchRedirects (chainRespond n) 0 = Except.ok (200, "done")) ∧
    (10 ≤ n → doFetchRedirects (chainRespond n) 0 = Except.error FetchErr.tooManyRedirects) := by
  rw [doFetchRedirects, clientLoop_chain]
  constructor
  · intro h
    rw [if_neg (by omega)]
  · intro h
    rw [if_pos (by omega)]

/-- Witness for C7: a 9-hop chain completes with `200 "done"` and an 11-hop
chain fails with the too-many-redirects error. -/
theorem redirect_policy_amended_witness :
    doFetchRedirects (chainRespond 9) 0 = Except.ok (200, "done") ∧
    doFetchRedirects (chainRespond 11) 0 = Except.error FetchErr.tooManyRedirects :=
  ⟨(redirect_policy_amended 9).1 (by norm_num),
   (redirect_policy_amended 11).2 (by norm_num)⟩

/-! ## Fetch coordinator and parallel scheduler
(`src/unnamed/part_003`, `src/parallel.go`, `src/main.go`) -/

/-- URL normalization shared by `fetchOne` (`part_003:43-46`) and `run`
(`main.go:106-109`): prepend `https://` when the input contains no `://`. -/
def normalizeURL (u : String) : String :=
  if strContains u "://" then u else "https://" ++ u

/-- The `fetchResult` record of `part_003:25-36`, restricted to the fields
the parallel scheduler writes (headers and the retained response carry no
information the claims need beyond status and body). -/
structure FetchResultR where
  URL : String
  StatusCode : Nat := 0
  Body : String := ""
  Error : Option String := none
deriving DecidableEq, Repr

/-- `fetchOne` (`part_003:41-216`), abstracted over the network: `net` maps a
target URL to either a transport error or a final (status, body).  The jar,
challenge and retry stages do not change the `URL` field of the result, which
is always the normalized target URL (`part_003:209-215`); the error return
carries no result. -/
def fetchOneM (net : String → Except String (Nat × String)) (rawURL : String) :
    Except String FetchResultR :=
  let targetURL := normalizeURL rawURL
  match net targetURL with
  | .error e => .error e
  | .ok (status, body) =>
    .ok { URL := targetURL, StatusCode := status, Body := body }

/-- `runParallelFetch` (`parallel.go:14-49`): one task per input URL, each
writing only its own pre-allocated slot `results[idx]` before `wg.Wait()`
joins them, so the result array is deterministic and order-preserving
regardless of interleaving — modelled as a map over the input list.  A task
whose `fetchOne` fails stores `{URL: rawURL, Error: err}`
(`parallel.go:38-44`); a successful task stores `*res` (`parallel.go:45`). -/
def runParallelFetch (net : String → Except String (Nat × String))
    (urls : List String) : List FetchResultR :=
  urls.map (fun u =>
    match fetchOneM net u with
    | .error e => { URL := u, Error := some e }
    | .ok res => res)

/-- A network oracle that answers every request with `200` and an empty
body. -/
def alwaysOkNet : String → Except String (Nat × String) :=
  fun _ => .ok (200, "")

/-- C2 counterexample: for the scheme-less input `"example.com"` and a fetch
that succeeds, the result's `URL` field is the normalized
`"https://example.com"`, not the input URL as the claim requires. -/
theorem parallel_url_claim_counterexample :
    (runParallelFetch alwaysOkNet ["example.com"]).map FetchResultR.URL
        = ["https://example.com"] ∧
    "https://example.com" ≠ "example.com" := by
  constructor
  · rfl
  · decide

/-- C2 (amended): the parallel fetcher returns exactly one result per input
URL, in input order; the `URL` field of result `i` is input `i` itself when
that fetch fails, and the normalized input (`https://` prepended when the
input has no scheme) when it succeeds — hence equal to input `i` whenever
input `i` contains `://`. -/
theorem parallel_order_preservation_amended
    (net : String → Except String (Nat × String)) (urls : List String) :
    (runParallelFetch net urls).length = urls.length ∧
    (runParallelFetch net urls).map FetchResultR.URL
      = urls.map (fun u =>
          match fetchOneM net u with
          | .ok _ => normalizeURL u
          | .error _ => u) ∧
    (∀ u ∈ urls, strContains u "://" = true → normalizeURL u = u) := by
  refine ⟨by simp [runParallelFetch], ?_, ?_⟩
  · unfold runParallelFetch
    rw [List.map_map]
    apply List.map_congr_left
    intro u _
    unfold fetchOneM
    dsimp only [Function.comp]
    cases hn : net (normalizeURL u) with
    | error e => rfl
    | ok sb =>
      obtain ⟨st, b⟩ := sb
      rfl
  · intro u _ hu
    unfold normalizeURL
    rw [if_pos hu]

/-- Witness for C2: a two-URL batch (one with scheme, one without) against
the always-200 network, with the length, URL list, and scheme-preservation
conclusions instantiated. -/
theorem parallel_order_preservation_amended_witness :
    (runParallelFetch alwaysOkNet ["https://a.com", "b.com"]).length = 2 ∧
    (runParallelFetch alwaysOkNet ["https://a.com", "b.com"]).map FetchResultR.URL
      = ["https://a.com", "https://b.com"] ∧
    normalizeURL "https://a.com" = "https://a.com" :=
  ⟨(parallel_order_preservation_amended alwaysOkNet ["https://a.com", "b.com"]).1.trans rfl,
   (parallel_order_preservation_amended alwaysOkNet ["https://a.com", "b.com"]).2.1.trans rfl,
   (parallel_order_preservation_amended alwaysOkNet ["https://a.com", "b.com"]).2.2
     "https://a.com" (by decide) (by decide)⟩

/-! ## HTTP requests issued by the two fetch surfaces -/

/-- A request as built by `doFetchWithBody` (`part_005:94-116`): method,
target URL, and the body string, where `""` means no request body is attached
(`reqBody` stays `nil`, `part_005:95-98`). -/
structure HTTPRequestR where
  method : String
  url : String
  body : String
deriving DecidableEq, Repr

/-- The requests issued by one `fetchOne` invocation (`part_003`): the
initial request is `doFetch(…, "GET", targetURL, nil, cookies)`
(`part_003:101`), and each of the at most two retry branches again calls
`doFetch` with literal method `"GET"` and no body (`part_003:140`,
`part_003:186`).  `jsRetry`/`captchaRetry` record whether the respective
solve succeeded and triggered a retry. -/
def fetchOneRequests (targetURL : String) (jsRetry captchaRetry : Bool) :
    List HTTPRequestR :=
  { method := "GET", url := targetURL, body := "" }
    :: ((if jsRetry then [{ method := "GET", url := targetURL, body := "" }] else [])
      ++ (if captchaRetry then [{ method := "GET", url := targetURL, body := "" }] else []))

/-- The requests issued by one `run` invocation (`main.go:161-267`): the
initial request uses `opts.method` and sends `opts.data` as the body when it
is non-empty (`main.go:164-168`), and each retry branch calls `doFetch` with
`opts.method` and no body (`main.go:207`, `main.go:261`). -/
def runRequests (method data targetURL : String) (jsRetry captchaRetry : Bool) :
    List HTTPRequestR :=
  { method := method, url := targetURL, body := data }
    :: ((if jsRetry then [{ method := method, url := targetURL, body := "" }] else [])
      ++ (if captchaRetry then [{ method := method, url := targetURL, body := "" }] else []))

/-- A request is retrieval-class: method `GET` and no body. -/
def isRetrievalOnly (r : HTTPRequestR) : Bool :=
  r.method == "GET" && r.body == ""

/-- C3: the `run` surface of `main.go` violates the retrieval-only contract.
Invoked with the CLI flags `-X POST -d x` on `https://example.com`
(`opts.method = "POST"`, `opts.data = "x"`), the fetch issues a `POST`
request carrying body `"x"` — the externally exposed surface does offer
custom method selection and body submission, contradicting the claim and the
repository's own README (`Read-only — GET requests only … no request
body`).  The `fetchOne` surface, by contrast, issues only `GET` requests
without a body on all its branches. -/
theorem run_surface_issues_non_get :
    runRequests "POST" "x" "https://example.com" false false
      = [{ method := "POST", url := "https://example.com", body := "x" }] ∧
    (runRequests "POST" "x" "https://example.com" false false).all isRetrievalOnly = false ∧
    (∀ targetURL jsRetry captchaRetry,
      (fetchOneRequests targetURL jsRetry captchaRetry).all isRetrievalOnly = true) := by
  refine ⟨rfl, by decide, ?_⟩
  intro targetURL jsRetry captchaRetry
  cases jsRetry <;> cases captchaRetry <;>
    simp [fetchOneRequests, isRetrievalOnly]

/-! ## Browser profiles and the sandbox navigator (`src/unnamed/part_009`,
`src/unnamed/part_004:166-171`) -/

/-- The `BrowserProfile` record (`part_009:7-11`).  The uTLS
`ClientHelloID` is an opaque fingerprint handle, modelled by its
identifier name. -/
structure BrowserProfile where
  Name : String
  TLSHello : String
  Headers : List (String × String)
deriving DecidableEq, Repr

/-- `chromeProfile()` (`part_009:24-43`). -/
def chromeProfile : BrowserProfile :=
  { Name := "chrome",
    TLSHello := "HelloChrome_Auto",
    Headers :=
      [("User-Agent", "Mozilla/5.0 (Windows NT 10.0; Win64; x64) AppleWebKit/537.36 (KHTML, like Gecko) Chrome/133.0.0.0 Safari/537.36"),
       ("Accept", "text/html,application/xhtml+xml,application/xml;q=0.9,image/avif,image/webp,image/apng,*/*;q=0.8"),
       ("Accept-Language", "en-US,en;q=0.9"),
       ("Accept-Encoding", "gzip, deflate, br, zstd"),
       ("Sec-Ch-Ua", "\"Chromium\";v=\"133\", \"Not(A:Brand\";v=\"99\", \"Google Chrome\";v=\"133\""),
       ("Sec-Ch-Ua-Mobile", "?0"),
       ("Sec-Ch-Ua-Platform", "\"Windows\""),
       ("Sec-Fetch-Site", "none"),
       ("Sec-Fetch-Mode", "navigate"),
       ("Sec-Fetch-User", "?1"),
       ("Sec-Fetch-Dest", "document"),
       ("Upgrade-Insecure-Requests", "1")] }

/-- `firefoxProfile()` (`part_009:45-61`). -/
def firefoxProfile : BrowserProfile :=
  { Name := "firefox",
    TLSHello := "HelloFirefox_Auto",
    Headers :=
      [("User-Agent", "Mozilla/5.0 (Windows NT 10.0; Win64; x64; rv:134.0) Gecko/20100101 Firefox/134.0"),
       ("Accept", "text/html,application/xhtml+xml,application/xml;q=0.9,*/*;q=0.8"),
       ("Accept-Language", "en-US,en;q=0.5"),
       ("Accept-Encoding", "gzip, deflate, br, zstd"),
       ("Sec-Fetch-Dest", "document"),
       ("Sec-Fetch-Mode", "navigate"),
       ("Sec-Fetch-Site", "none"),
       ("Sec-Fetch-User", "?1"),
       ("Upgrade-Insecure-Requests", "1")] }

/-- `getProfile(name)` (`part_009:13-22`): `firefox` and `chrome` by name,
anything else defaults to the chrome profile. -/
def getProfile (name : String) : BrowserProfile :=
  if name == "firefox" then firefoxProfile
  else if name == "chrome" then chromeProfile
  else chromeProfile

/-- First-match header lookup on a profile's ordered header list (the
profile's header value for a name). -/
def headerValue (headers : List (String × String)) (key : String) : String :=
  match headers.find? (fun h => h.1 == key) with
  | some h => h.2
  | none => ""

/-- The `navigator.userAgent` string installed by `setupGlobals`
(`part_004:166-167`): a fixed literal. -/
def sandboxNavigatorUA : String :=
  "Mozilla/5.0 (Windows NT 10.0; Win64; x64) AppleWebKit/537.36 (KHTML, like Gecko) Chrome/133.0.0.0 Safari/537.36"

/-- The user agent the JS sandbox presents for a fetch using the given
profile: `fetchOne` constructs the solver as `newJSSolver(targetURL)`
(`part_003:116`) and `newJSSolver` receives no profile (`part_004:28-30`),
so `setupGlobals` installs the fixed string whatever the profile. -/
def installedNavigatorUA (_profile : BrowserProfile) : String :=
  sandboxNavigatorUA

/-- C9 counterexample: fetching under the firefox profile, the sandbox does
not present that profile's User-Agent header value — the installed string is
the fixed Chrome user agent. -/
theorem sandbox_ua_claim_counterexample :
    installedNavigatorUA (getProfile "firefox")
        ≠ headerValue (getProfile "firefox").Headers "User-Agent" ∧
    installedNavigatorUA (getProfile "firefox") = sandboxNavigatorUA := by
  constructor
  · decide
  · rfl

/-- C9 (amended): the JS sandbox installs a fixed `navigator.userAgent`
string independent of the profile used for the fetch; the fixed string
equals the chrome profile's User-Agent header value and differs from the
firefox profile's. -/
theorem sandbox_ua_fixed_chrome (browser : String) :
    installedNavigatorUA (getProfile browser) = sandboxNavigatorUA ∧
    sandboxNavigatorUA = headerValue chromeProfile.Headers "User-Agent" ∧
    headerValue firefoxProfile.Headers "User-Agent" ≠ sandboxNavigatorUA := by
  refine ⟨rfl, rfl, by decide⟩
